import Mathlib

/-!
Verification of the command core of the triagebot repository.

The development shallowly embeds, in Lean, the parts of the repository that
the checked properties are about:

* `parser/src/command/manage_notifs.rs` — the notification-management
  command grammar (`NotifCommand::parse`);
* `src/src/handlers.rs` — the dispatch router for code-hosting events
  (`handle_github`) and chat messages (`handle_zulip`), together with
  `HandlerError` and its `Display` rendering;
* `src/src/handlers/manage_notifs.rs` — the execution phase of
  notification-management commands;
* `src/src/zulip.rs` — the outbound reply rendering (`respond`).

Code of the repository that the above depends on but that is not available
(the tokenizer in `parser/src/token.rs`, the configuration loader, the
database layer in `src/db/notifications.rs`, the identity resolver) is
modelled from the specification; every such definition carries a doc
comment starting with `Modelled from the spec:`.
-/

set_option autoImplicit false

deriving instance DecidableEq for Except

namespace Triagebot

/-! ## Tokenizer (modelled) -/

/-- Modelled from the spec: the lexical tokens of `parser/src/token.rs`
(not under `src/`). Spec §3: a token is one of `Word(text)`,
`Quote(text)` (quoted literal), `Semi`, `Dot`, `EndOfLine`. -/
inductive Token where
  | Word (text : String)
  | Quote (text : String)
  | Semi
  | Dot
  | EndOfLine
deriving DecidableEq, Repr

/-- Modelled from the spec: the tokenizer/cursor of `parser/src/token.rs`
(not under `src/`). Spec §3/§4.1: it holds the remaining input and a read
position, duplication is cheap and independent, and exhausted input yields
no token. A cursor is modelled as the stream of tokens still to be read;
lexing errors (unterminated quotes) are outside the model, so the embedded
operations are total. -/
abbrev Tokenizer := List Token

/-- Modelled from the spec: `peek_token` reads the next token without
consuming it (spec §4.1). -/
def Tokenizer.peek_token (t : Tokenizer) : Option Token :=
  t.head?

/-- Modelled from the spec: `next_token` reads the next token and advances
the cursor (spec §4.1); the advanced cursor is returned alongside. -/
def Tokenizer.next_token (t : Tokenizer) : Option Token × Tokenizer :=
  (t.head?, t.tail)

/-- Modelled from the spec: the `Display` rendering of a token, used by the
source through `.to_string()` when accumulating description words. A word
renders as its text and a quoted literal with its quotes; the terminator
tokens never reach this rendering in the embedded code paths. -/
def Token.render : Token → String
  | Token.Word w => w
  | Token.Quote q => "\"" ++ q ++ "\""
  | Token.Semi => ";"
  | Token.Dot => "."
  | Token.EndOfLine => ""

/-! ## The notification-management command grammar
(`parser/src/command/manage_notifs.rs`) -/

/-- `NotifCommandKind` from `parser/src/command/manage_notifs.rs` lines
10-16. -/
inductive NotifCommandKind where
  | Acknowledge (ident : String)
  | Add (url : String) (description : String)
  | Move (fromPos : String) (toPos : String)
  | Meta (idx : String) (description : String)
deriving DecidableEq, Repr

/-- `NotifCommand` from `parser/src/command/manage_notifs.rs` lines 4-8. -/
structure NotifCommand where
  command : NotifCommandKind
  user_override : Option String
deriving DecidableEq, Repr

/-- The description-consumption loop shared by the `add` and `meta` arms
(`parser/src/command/manage_notifs.rs` lines 47-60 and 82-95): while the
peeked token is neither `Semi`, `Dot`, `EndOfLine` nor end of input,
consume it and append its rendering plus one space; at a terminator, pop
exactly one trailing character from the accumulator (`String.pop` in the
source, a no-op on the empty string) and stop with the cursor left on the
terminator. -/
def NotifCommand.consumeDescription : Tokenizer → String → String × Tokenizer
  | [], acc => (acc.dropRight 1, [])
  | Token.Semi :: rest, acc => (acc.dropRight 1, Token.Semi :: rest)
  | Token.Dot :: rest, acc => (acc.dropRight 1, Token.Dot :: rest)
  | Token.EndOfLine :: rest, acc => (acc.dropRight 1, Token.EndOfLine :: rest)
  | tok :: rest, acc => NotifCommand.consumeDescription rest (acc ++ tok.render ++ " ")

/-- The `Some(Token::Word(_)) | Some(Token::Quote(_))` argument patterns of
the `acknowledge` and `move` arms. -/
def NotifCommand.wordOrQuote : Option Token → Option String
  | some (Token.Word w) => some w
  | some (Token.Quote q) => some q
  | _ => none

/-- The command dispatch of `NotifCommand::parse`
(`parser/src/command/manage_notifs.rs` lines 30-101), operating on the
cloned cursor after the optional `as <username>` prefix has been handled.
The keyword is inspected with `peek_token` and, exactly as in the source,
is never consumed before the argument reads: each arm's first `next_token`
therefore yields the keyword token itself. The `meta` arm constructs
`NotifCommandKind::Add` exactly as the source does on lines 87 and 91. -/
def NotifCommand.parseKind (userOv : Option String) (toks : Tokenizer) :
    Except String (Option NotifCommand) :=
  match toks.peek_token with
  | some (Token.Word cmd) =>
    if cmd = "acknowledge" ∨ cmd = "ack" then
      match NotifCommand.wordOrQuote (toks.next_token).1 with
      | some idx => Except.ok (some ⟨NotifCommandKind.Acknowledge idx, userOv⟩)
      | none => Except.ok none
    else if cmd = "add" then
      match toks.next_token with
      | (some (Token.Quote url), toks1) =>
        Except.ok (some ⟨NotifCommandKind.Add url
          (NotifCommand.consumeDescription toks1 "").1, userOv⟩)
      | _ => Except.ok none
    else if cmd = "move" then
      match NotifCommand.wordOrQuote (toks.next_token).1 with
      | some fromPos =>
        match NotifCommand.wordOrQuote ((toks.next_token).2.next_token).1 with
        | some toPos => Except.ok (some ⟨NotifCommandKind.Move fromPos toPos, userOv⟩)
        | none => Except.ok none
      | none => Except.ok none
    else if cmd = "meta" then
      match toks.next_token with
      | (some (Token.Word idx), toks1) =>
        Except.ok (some ⟨NotifCommandKind.Add idx
          (NotifCommand.consumeDescription toks1 "").1, userOv⟩)
      | _ => Except.ok none
    else Except.ok none
  | _ => Except.ok none

/-- The body of `NotifCommand::parse` run on the clone `toks` of the
caller's cursor (`parser/src/command/manage_notifs.rs` lines 20-29 for the
`as <username>` prefix): peek for the word `as`; when present, consume it
and require a following word as the delegate name, degrading to `Ok(None)`
otherwise; then parse the command keyword. -/
def NotifCommand.parseOnClone (toks : Tokenizer) : Except String (Option NotifCommand) :=
  match toks.peek_token with
  | some (Token.Word "as") =>
    match ((toks.next_token).2).next_token with
    | (some (Token.Word user), toks1) => NotifCommand.parseKind (some user) toks1
    | _ => Except.ok none
  | _ => NotifCommand.parseKind none toks

/-- `NotifCommand::parse` from `parser/src/command/manage_notifs.rs` lines
19-107. The source takes `input: &mut Tokenizer` and immediately clones it
(`let mut toks = input.clone()`, line 20); every token it consumes is
consumed from the clone and the clone is never written back, so the
caller's cursor is unchanged on return. The embedding makes the mutable
reference explicit: the second component of the result is the caller's
cursor after the call. -/
def NotifCommand.parse (input : Tokenizer) :
    Except String (Option NotifCommand) × Tokenizer :=
  (NotifCommand.parseOnClone input, input)

/-! ## The dispatch router (`src/src/handlers.rs`) -/

/-- `HandlerError` from `src/src/handlers.rs` lines 9-13. The wrapped
`anyhow::Error` of the `Other` variant is modelled by its rendered text. -/
inductive HandlerError where
  | Message (msg : String)
  | Other (err : String)
deriving DecidableEq, Repr

/-- The `Display` implementation of `HandlerError`
(`src/src/handlers.rs` lines 17-24): a `Message` is shown verbatim and an
`Other` always renders as the fixed internal-error notice, ignoring the
wrapped error. -/
def HandlerError.display : HandlerError → String
  | HandlerError.Message msg => msg
  | HandlerError.Other _ => "An internal error occurred."

/-- Modelled from the spec: the classified configuration-loading failure of
`src/config.rs` (not under `src/`); spec §6 names the three classes
missing, malformed (`Toml`) and transient (`Http`), which is also the
shape matched by `handle_github` in `src/src/handlers.rs` lines 51-59. -/
inductive ConfigurationError where
  | Missing
  | Toml (msg : String)
  | Http (msg : String)
deriving DecidableEq, Repr

/-- Modelled from the spec: the `Display` rendering (`e.to_string()`) of a
configuration failure; the exact wording lives in `src/config.rs`, which
is not under `src/`, so representative texts are used. -/
def ConfigurationError.display : ConfigurationError → String
  | ConfigurationError.Missing => "configuration file is missing"
  | ConfigurationError.Toml m => "configuration file is malformed: " ++ m
  | ConfigurationError.Http m => "failed to load configuration: " ++ m

/-- Modelled from the spec: a successfully loaded repository configuration,
one optional section per feature name (spec §6); sections themselves are
opaque to the router and modelled as strings. -/
structure Config where
  sections : String → Option String

/-- A registered code-hosting-event handler, abstracted over the fixed
context and event of one dispatch: `name` is the feature name the
`github_handlers!` macro expands (`stringify!($name)`), `parseInput` is
the outcome of `GithubHandler::parse_input` as a function of the optional
configuration section it is given, and `handleInput` the outcome of
`GithubHandler::handle_input` on the section and the parsed input. Inputs
and internal errors are modelled as strings. -/
structure GithubHandlerSpec where
  name : String
  parseInput : Option String → Except String (Option String)
  handleInput : String → String → Except String Unit

/-- A registered chat-event handler, abstracted over the fixed context and
request of one dispatch, mirroring the `ZulipHandler` trait of
`src/src/handlers.rs` lines 148-163. -/
structure ZulipHandlerSpec where
  name : String
  parseInput : Except String (Option String)
  handleInput : String → Except String Unit

/-- The observable calls a dispatch makes, recorded as a trace. -/
inductive DispatchEvent where
  | parseCalled (handler : String)
  | executeCalled (handler : String)
  | notifCalled
  | rustcCalled
  | errorLogged (source : String)
deriving DecidableEq, Repr

/-- The section argument `parse_input` receives:
`config.as_ref().ok().and_then(|c| c.$name.as_ref())` from
`src/src/handlers.rs` line 47. -/
def sectionFor (cfg : Except ConfigurationError Config) (name : String) :
    Option String :=
  cfg.toOption.bind (fun c => c.sections name)

/-- The fixed feature-not-enabled message of `src/src/handlers.rs` lines
64-69. -/
def featureNotEnabled (name : String) : String :=
  "The feature `" ++ name ++ "` is not enabled in this repository.\n"
    ++ "To enable it add its section in the `triagebot.toml` "
    ++ "in the root of the repository."

/-- The handler loop of `handle_github` (`src/src/handlers.rs` lines
45-71, the expansion of `github_handlers!` over the registered list):
for each handler in order, call `parse_input` with its optional section;
a parse error aborts with `HandlerError::Message` (the `?` on line 48);
on `Some(input)`, a `Missing` or `Toml` configuration failure aborts with
that failure's message, an `Http` failure aborts with
`HandlerError::Other`, an absent section aborts with the fixed
feature-not-enabled message, and otherwise `handle_input` runs, its error
aborting with `HandlerError::Other` (the `?` on line 62). The result is
the trace of calls made and the aborting error, if any. -/
def runGithubHandlers (cfg : Except ConfigurationError Config) :
    List GithubHandlerSpec → List DispatchEvent × Option HandlerError
  | [] => ([], none)
  | h :: rest =>
    match h.parseInput (sectionFor cfg h.name) with
    | Except.error msg =>
      ([DispatchEvent.parseCalled h.name], some (HandlerError.Message msg))
    | Except.ok none =>
      (DispatchEvent.parseCalled h.name :: (runGithubHandlers cfg rest).1,
       (runGithubHandlers cfg rest).2)
    | Except.ok (some input) =>
      match cfg with
      | Except.error ConfigurationError.Missing =>
        ([DispatchEvent.parseCalled h.name],
         some (HandlerError.Message
           (ConfigurationError.display ConfigurationError.Missing)))
      | Except.error (ConfigurationError.Toml m) =>
        ([DispatchEvent.parseCalled h.name],
         some (HandlerError.Message
           (ConfigurationError.display (ConfigurationError.Toml m))))
      | Except.error (ConfigurationError.Http m) =>
        ([DispatchEvent.parseCalled h.name],
         some (HandlerError.Other
           (ConfigurationError.display (ConfigurationError.Http m))))
      | Except.ok c =>
        match c.sections h.name with
        | none =>
          ([DispatchEvent.parseCalled h.name],
           some (HandlerError.Message (featureNotEnabled h.name)))
        | some sec =>
          match h.handleInput sec input with
          | Except.error e =>
            ([DispatchEvent.parseCalled h.name, DispatchEvent.executeCalled h.name],
             some (HandlerError.Other e))
          | Except.ok _ =>
            (DispatchEvent.parseCalled h.name :: DispatchEvent.executeCalled h.name
               :: (runGithubHandlers cfg rest).1,
             (runGithubHandlers cfg rest).2)

/-- `handle_github` from `src/src/handlers.rs` lines 42-82: the handler
loop, then — only when no handler aborted, since an abort is a `return`
out of the whole function — the two fixed post-processing steps
(`notification::handle`, line 73, and `rustc_commits::handle`, line 77),
whose outcomes are passed in as parameters because those modules are not
under `src/`; an error of either step is logged and discarded and the
function ends with `Ok(())` (line 81). -/
def handle_github (cfg : Except ConfigurationError Config)
    (hs : List GithubHandlerSpec) (notif rustc : Except String Unit) :
    Except HandlerError Unit × List DispatchEvent :=
  match (runGithubHandlers cfg hs).2 with
  | some err => (Except.error err, (runGithubHandlers cfg hs).1)
  | none =>
    (Except.ok (),
     (runGithubHandlers cfg hs).1
       ++ (DispatchEvent.notifCalled ::
            (match notif with
             | Except.error _ => [DispatchEvent.errorLogged "notification"]
             | Except.ok _ => []))
       ++ (DispatchEvent.rustcCalled ::
            (match rustc with
             | Except.error _ => [DispatchEvent.errorLogged "rustc_commits"]
             | Except.ok _ => [])))

/-- `handle_zulip` from `src/src/handlers.rs` lines 88-98 (the expansion
of `zulip_handlers!` over the registered list): for each handler in
order, call `parse_input`; a parse error aborts with
`HandlerError::Message`, an execute error aborts with
`HandlerError::Other`, and in every non-aborting case — including after a
handler matched and executed successfully — the next handler is tried. -/
def handle_zulip : List ZulipHandlerSpec →
    Except HandlerError Unit × List DispatchEvent
  | [] => (Except.ok (), [])
  | h :: rest =>
    match h.parseInput with
    | Except.error m =>
      (Except.error (HandlerError.Message m), [DispatchEvent.parseCalled h.name])
    | Except.ok none =>
      ((handle_zulip rest).1, DispatchEvent.parseCalled h.name :: (handle_zulip rest).2)
    | Except.ok (some input) =>
      match h.handleInput input with
      | Except.error e =>
        (Except.error (HandlerError.Other e),
         [DispatchEvent.parseCalled h.name, DispatchEvent.executeCalled h.name])
      | Except.ok _ =>
        ((handle_zulip rest).1,
         DispatchEvent.parseCalled h.name :: DispatchEvent.executeCalled h.name
           :: (handle_zulip rest).2)

/-! ## The notification store (modelled) and the execution phase
(`src/src/handlers/manage_notifs.rs`) -/

/-- A stored notification. The source type lives in
`src/db/notifications.rs` (not under `src/`); the fields the embedded code
reads are kept, with `origin_html`, `time` and `team_name` omitted. -/
structure Notification where
  user_id : Int
  origin_url : String
  short_description : Option String
  metadata : Option String
deriving DecidableEq, Repr

/-- Modelled from the spec: the notification store keyed by owner; spec §3
says each owner has one ordered list, disjoint across owners, with
positions being the 1-based list order. -/
def Store := Int → List Notification

/-- `Identifier` from `src/db/notifications.rs` (not under `src/`): a
1-based index (a `NonZeroUsize` in the source) or a literal URL. -/
inductive Identifier where
  | Index (n : Nat)
  | Url (url : String)
deriving DecidableEq, Repr

/-- Modelled from the spec: `db::notifications::delete_ping`
(not under `src/`); spec §4.3 Acknowledge — a position removes the entry
at that 1-based position of the owner's list and fails with `NotFound`
out of range; a URL removes every entry whose `origin_url` equals it,
an empty removal set being allowed. The removed entries are returned and
the remaining ones keep their order. -/
def delete_ping (store : Store) (gh_id : Int) (ident : Identifier) :
    Except String (Store × List Notification) :=
  let mine := store gh_id
  match ident with
  | Identifier.Url url =>
    Except.ok
      (fun g => if g = gh_id then mine.filter (fun n => n.origin_url ≠ url) else store g,
       mine.filter (fun n => n.origin_url = url))
  | Identifier.Index i =>
    if 1 ≤ i ∧ i ≤ mine.length then
      Except.ok
        (fun g => if g = gh_id then mine.take (i - 1) ++ mine.drop i else store g,
         (mine.drop (i - 1)).take 1)
    else Except.error "NotFound"

/-- Modelled from the spec: `db::notifications::record_ping`
(not under `src/`); spec §4.3 Add — append a new entry at position `N+1`;
always succeeds. -/
def record_ping (store : Store) (n : Notification) : Except String Store :=
  Except.ok (fun g => if g = n.user_id then store n.user_id ++ [n] else store g)

/-- Modelled from the spec: `db::notifications::move_indices`
(not under `src/`); spec §4.3 Move — relocate the entry at `fromIdx` to
position `toIdx` by remove-then-insert, preserving the relative order of
the other entries, failing with `InvalidPosition` out of range. The caller
in `src/src/handlers/manage_notifs.rs` passes 0-based indices. -/
def move_indices (store : Store) (gh_id : Int) (fromIdx toIdx : Nat) :
    Except String Store :=
  let mine := store gh_id
  if fromIdx < mine.length ∧ toIdx < mine.length then
    match (mine.drop fromIdx).head? with
    | some entry =>
      Except.ok (fun g =>
        if g = gh_id then
          ((mine.take fromIdx ++ mine.drop (fromIdx + 1)).take toIdx)
            ++ entry :: ((mine.take fromIdx ++ mine.drop (fromIdx + 1)).drop toIdx)
        else store g)
    | none => Except.error "InvalidPosition"
  else Except.error "InvalidPosition"

/-- Modelled from the spec: `db::notifications::add_metadata`
(not under `src/`); spec §4.3 AddMetadata — replace the metadata field of
the entry at the given index, failing with `InvalidPosition` out of range;
the caller passes a 0-based index and `None` clears the field. -/
def add_metadata (store : Store) (gh_id : Int) (idx : Nat)
    (description : Option String) : Except String Store :=
  let mine := store gh_id
  if idx < mine.length then
    Except.ok (fun g =>
      if g = gh_id then
        mine.take idx
          ++ ((mine.drop idx).take 1).map (fun n => { n with metadata := description })
          ++ mine.drop (idx + 1)
      else store g)
  else Except.error "InvalidPosition"

/-- Accumulate decimal digits; any non-digit character fails the parse. -/
def parseDigits : List Char → Nat → Option Nat
  | [], acc => some acc
  | c :: cs, acc =>
    if c.isDigit then parseDigits cs (acc * 10 + (c.toNat - 48)) else none

/-- Modelled from the spec: `str::parse::<usize>` as the executors use it —
one or more ASCII decimal digits (the optional leading sign the Rust
implementation also accepts cannot occur in the grammar's word tokens
here). -/
def parseUsize (s : String) : Option Nat :=
  match s.toList with
  | [] => none
  | c :: cs => parseDigits (c :: cs) 0

/-- Modelled from the spec: the `serde_json::to_string(&Response { .. })`
wrapper applied to every user-visible reply content; the JSON escaping of
the content is not modelled. -/
def mkResponse (content : String) : String :=
  "\x7b\"content\":\"" ++ content ++ "\"\x7d"

/-- The reply body built for an acknowledgement
(`src/src/handlers/manage_notifs.rs` lines 236-249): the header followed
by one bullet per removed entry. -/
def ackResponse (deleted : List Notification) : String :=
  deleted.foldl
    (fun resp d =>
      resp ++ " * [" ++ (d.short_description.getD d.origin_url) ++ "]("
        ++ d.origin_url ++ ")"
        ++ (match d.metadata with
            | some m => " (" ++ m ++ ")"
            | none => "")
        ++ "\n")
    "Acknowledged:\n"

/-- `acknowledge` from `src/src/handlers/manage_notifs.rs` lines 216-257.
The source body still reads its argument from a `words` iterator that is
not bound anywhere in the function (the file is a half-finished refactor
from word-splitting to the parsed command); that read is resolved to the
`idx` parameter the new signature already carries, and the word-count
checks on the unbound iterator have no counterpart. The rest follows the
source: a numeric argument must be nonzero — `NonZeroUsize::new` on `0`
bails with the error `index must be at least 1` before any store call —
and a non-numeric argument is a URL identifier; a store-level failure is
reported inside an `Ok` reply. -/
def acknowledge (store : Store) (gh_id : Int) (idx : String) :
    Store × Except String String :=
  match parseUsize idx with
  | some number =>
    if number = 0 then (store, Except.error "index must be at least 1")
    else
      match delete_ping store gh_id (Identifier.Index number) with
      | Except.ok (store2, deleted) => (store2, Except.ok (mkResponse (ackResponse deleted)))
      | Except.error e =>
        (store, Except.ok (mkResponse ("Failed to acknowledge " ++ idx ++ ": " ++ e ++ ".")))
  | none =>
    match delete_ping store gh_id (Identifier.Url idx) with
    | Except.ok (store2, deleted) => (store2, Except.ok (mkResponse (ackResponse deleted)))
    | Except.error e =>
      (store, Except.ok (mkResponse ("Failed to acknowledge " ++ idx ++ ": " ++ e ++ ".")))

/-- `add_notification` from `src/src/handlers/manage_notifs.rs` lines
259-293: an empty description is normalized to `None`, then the entry is
recorded; a store-level failure is reported inside an `Ok` reply. -/
def add_notification (store : Store) (gh_id : Int) (url description : String) :
    Store × Except String String :=
  let desc := if description = "" then none else some description
  match record_ping store
      { user_id := gh_id, origin_url := url, short_description := desc,
        metadata := none } with
  | Except.ok store2 => (store2, Except.ok (mkResponse "Created!"))
  | Except.error e => (store, Except.ok (mkResponse ("Failed to create: " ++ e)))

/-- `add_meta_notification` from `src/src/handlers/manage_notifs.rs` lines
295-337, with the unbound `words` reads resolved to the `idx` and
`metadata` parameters of the new signature: the index must parse
(`context("index")`) and be at least 1 (`checked_sub(1)` bails with
`1-based indexes` before any store call), and an empty description is
normalized to `None`. -/
def add_meta_notification (store : Store) (gh_id : Int) (idx metadata : String) :
    Store × Except String String :=
  match parseUsize idx with
  | none => (store, Except.error "index")
  | some n =>
    if n = 0 then (store, Except.error "1-based indexes")
    else
      let desc := if metadata = "" then none else some metadata
      match add_metadata store gh_id (n - 1) desc with
      | Except.ok store2 => (store2, Except.ok (mkResponse "Added metadata!"))
      | Except.error e => (store, Except.ok (mkResponse ("Failed to add: " ++ e)))

/-- `move_notification` from `src/src/handlers/manage_notifs.rs` lines
339-373, with the unbound `words` reads resolved to the `fromIdx` and
`toIdx` parameters of the new signature. Validation follows the source
order: `from` must parse (`context("from index")`) and be at least 1
(`checked_sub(1)` bails with `1-based indexes`), then `to` likewise, all
before any store call; the success reply renders the 1-based indices. -/
def move_notification (store : Store) (gh_id : Int) (fromIdx toIdx : String) :
    Store × Except String String :=
  match parseUsize fromIdx with
  | none => (store, Except.error "from index")
  | some f =>
    if f = 0 then (store, Except.error "1-based indexes")
    else
      match parseUsize toIdx with
      | none => (store, Except.error "to index")
      | some t =>
        if t = 0 then (store, Except.error "1-based indexes")
        else
          match move_indices store gh_id (f - 1) (t - 1) with
          | Except.ok store2 =>
            (store2, Except.ok (mkResponse
              ("Moved " ++ toString f ++ " to " ++ toString t ++ ".")))
          | Except.error e =>
            (store, Except.ok (mkResponse ("Failed to move: " ++ e ++ ".")))

/-- The chat message metadata of `src/src/zulip.rs` lines 20-31; only the
fields the embedded code reads are kept. -/
structure Message where
  sender_id : Nat
  type_ : String
deriving DecidableEq, Repr

/-- The inbound chat request of `src/src/zulip.rs` lines 8-18. -/
structure Request where
  data : String
  message : Message
  token : String
deriving DecidableEq, Repr

/-- `handle_input` from `src/src/handlers/manage_notifs.rs` lines 34-76.
Lines 39-50 guard on a variable `next` that is not bound anywhere in the
function (a leftover of the word-iterator version), and the delegation
path `execute_for_other_user` it would enter likewise reads an unbound
`words` instead of the parsed command, so that guard has no translation;
nothing else in the function reads `input.user_override`. The remainder is
translated: resolve the sender id through the identity map
(`zulip::to_github_id`, an external collaborator passed in as `resolver`),
reply on an unknown user or a resolver failure, and otherwise dispatch on
the parsed command kind with the resolved id. Replies are returned as the
`String` value of the result. -/
def handle_input (resolver : Nat → Except String (Option Int)) (store : Store)
    (req : Request) (input : NotifCommand) : Store × Except String String :=
  match resolver req.message.sender_id with
  | Except.ok (some gh_id) =>
    match input.command with
    | NotifCommandKind.Acknowledge idx => acknowledge store gh_id idx
    | NotifCommandKind.Add url description => add_notification store gh_id url description
    | NotifCommandKind.Move f t => move_notification store gh_id f t
    | NotifCommandKind.Meta idx m => add_meta_notification store gh_id idx m
  | Except.ok none =>
    (store, Except.ok (mkResponse
      ("Unknown Zulip user. Please add `zulip-id = "
        ++ toString req.message.sender_id
        ++ "` to your file in rust-lang/team.")))
  | Except.error e =>
    (store, Except.ok (mkResponse ("Failed to query team API: " ++ e)))

/-! ## The outbound reply rendering (`src/src/zulip.rs`) -/

/-- `respond` from `src/src/zulip.rs` lines 82-111: compare the request
token against the expected one (the `ZULIP_TOKEN` environment value,
passed in), then render the dispatch outcome — a `Message` error becomes a
reply carrying that message verbatim, an `Other` error is logged and
becomes the fixed generic reply `handling failed, error logged`, and
success produces the empty string. The dispatch outcome is passed in as
`result`. -/
def respond (expectedToken : String) (req : Request)
    (result : Except HandlerError Unit) : String :=
  if req.token = expectedToken then
    match result with
    | Except.error (HandlerError.Message message) => mkResponse message
    | Except.error (HandlerError.Other _) => mkResponse "handling failed, error logged"
    | Except.ok _ => ""
  else mkResponse "Invalid authorization."

/-! ## Helper lemmas -/

/-- The handler loop itself never emits the two post-processing calls:
its trace holds only parse and execute calls. -/
theorem runGithubHandlers_no_post (cfg : Except ConfigurationError Config) :
    ∀ hs : List GithubHandlerSpec,
      DispatchEvent.notifCalled ∉ (runGithubHandlers cfg hs).1
      ∧ DispatchEvent.rustcCalled ∉ (runGithubHandlers cfg hs).1
  | [] => by simp [runGithubHandlers]
  | h :: rest => by
    have ih := runGithubHandlers_no_post cfg rest
    simp only [runGithubHandlers]
    split
    · simp
    · simpa using ih
    · split
      · simp
      · simp
      · simp
      · split
        · simp
        · split
          · simp
          · simpa using ih

/-! ## The claims -/

/-- C1 (amended): the two fixed post-processing steps of `handle_github`
run exactly when the handler loop finishes without an abort; in that case
both are invoked and any error either returns is discarded — the result is
`Ok(())` whatever their outcomes, with the failure only logged. When a
handler aborts (a `parse_input` error, a configuration problem or an
`execute` error), `handle_github` returns that error at once and neither
post-processing step is invoked. -/
theorem handle_github_post_steps (cfg : Except ConfigurationError Config)
    (hs : List GithubHandlerSpec) (notif rustc : Except String Unit) :
    ((runGithubHandlers cfg hs).2 = none →
      (handle_github cfg hs notif rustc).1 = Except.ok ()
      ∧ DispatchEvent.notifCalled ∈ (handle_github cfg hs notif rustc).2
      ∧ DispatchEvent.rustcCalled ∈ (handle_github cfg hs notif rustc).2)
    ∧ (∀ err, (runGithubHandlers cfg hs).2 = some err →
      handle_github cfg hs notif rustc
        = (Except.error err, (runGithubHandlers cfg hs).1)
      ∧ DispatchEvent.notifCalled ∉ (handle_github cfg hs notif rustc).2
      ∧ DispatchEvent.rustcCalled ∉ (handle_github cfg hs notif rustc).2) := by
  constructor
  · intro hnone
    unfold handle_github
    rw [hnone]
    refine ⟨rfl, ?_, ?_⟩ <;> simp
  · intro err herr
    unfold handle_github
    rw [herr]
    exact ⟨rfl, (runGithubHandlers_no_post cfg hs).1,
      (runGithubHandlers_no_post cfg hs).2⟩

/-- Witness for C1 at a concrete input: with no handler aborting, both
post steps appear in the trace and the result is `Ok(())` even though the
notification step failed. -/
theorem handle_github_post_steps_witness :
    (handle_github (Except.ok ⟨fun _ => none⟩) []
        (Except.error "boom") (Except.ok ())).1 = Except.ok ()
    ∧ DispatchEvent.notifCalled
        ∈ (handle_github (Except.ok ⟨fun _ => none⟩) []
            (Except.error "boom") (Except.ok ())).2
    ∧ DispatchEvent.rustcCalled
        ∈ (handle_github (Except.ok ⟨fun _ => none⟩) []
            (Except.error "boom") (Except.ok ())).2 :=
  (handle_github_post_steps (Except.ok ⟨fun _ => none⟩) []
    (Except.error "boom") (Except.ok ())).1 rfl

/-- C1 counterexample: a handler whose `parse_input` errors makes
`handle_github` return at once — the claim says the two post-processing
steps are still invoked, but neither appears in the trace. -/
theorem handle_github_skips_post_steps_on_error :
    DispatchEvent.notifCalled
      ∉ (handle_github (Except.ok ⟨fun _ => none⟩)
          [⟨"assign", fun _ => Except.error "parse failed", fun _ _ => Except.ok ()⟩]
          (Except.ok ()) (Except.ok ())).2
    ∧ DispatchEvent.rustcCalled
      ∉ (handle_github (Except.ok ⟨fun _ => none⟩)
          [⟨"assign", fun _ => Except.error "parse failed", fun _ _ => Except.ok ()⟩]
          (Except.ok ()) (Except.ok ())).2
    ∧ (handle_github (Except.ok ⟨fun _ => none⟩)
          [⟨"assign", fun _ => Except.error "parse failed", fun _ _ => Except.ok ()⟩]
          (Except.ok ()) (Except.ok ())).1
        = Except.error (HandlerError.Message "parse failed") := by
  decide

/-- C2 (amended): `handle_zulip` tries the registered handlers in fixed
order and executes every handler whose `parse_input` returns
`Some(input)`, not only the first: after a handler matches and executes
successfully, dispatch continues with the remaining handlers exactly as if
none had matched; only a parse or execute error stops the iteration. -/
theorem handle_zulip_continues_after_match (h : ZulipHandlerSpec)
    (rest : List ZulipHandlerSpec) (input : String)
    (hp : h.parseInput = Except.ok (some input))
    (he : h.handleInput input = Except.ok ()) :
    handle_zulip (h :: rest)
      = ((handle_zulip rest).1,
         DispatchEvent.parseCalled h.name :: DispatchEvent.executeCalled h.name
           :: (handle_zulip rest).2) := by
  simp only [handle_zulip, hp, he]

/-- Witness for C2 at a concrete input: a matched-and-executed head
handler, with dispatch continuing into the (empty) tail. -/
theorem handle_zulip_continues_after_match_witness :
    handle_zulip [⟨"first", Except.ok (some "i"), fun _ => Except.ok ()⟩]
      = ((handle_zulip []).1,
         DispatchEvent.parseCalled "first" :: DispatchEvent.executeCalled "first"
           :: (handle_zulip []).2) :=
  handle_zulip_continues_after_match
    ⟨"first", Except.ok (some "i"), fun _ => Except.ok ()⟩ [] "i" rfl rfl

/-- C2 counterexample: with two registered handlers that both match, the
first matches and executes, and the second is still tried and executed
afterwards — the claim says no further handler is tried once one has
matched and executed. -/
theorem handle_zulip_not_first_match_wins :
    DispatchEvent.executeCalled "first"
      ∈ (handle_zulip
          [⟨"first", Except.ok (some "ia"), fun _ => Except.ok ()⟩,
           ⟨"second", Except.ok (some "ib"), fun _ => Except.ok ()⟩]).2
    ∧ DispatchEvent.parseCalled "second"
      ∈ (handle_zulip
          [⟨"first", Except.ok (some "ia"), fun _ => Except.ok ()⟩,
           ⟨"second", Except.ok (some "ib"), fun _ => Except.ok ()⟩]).2
    ∧ DispatchEvent.executeCalled "second"
      ∈ (handle_zulip
          [⟨"first", Except.ok (some "ia"), fun _ => Except.ok ()⟩,
           ⟨"second", Except.ok (some "ib"), fun _ => Except.ok ()⟩]).2 := by
  decide

/-- C3 counterexample: `add foo` — the first word is the recognized
keyword `add` and the remainder is malformed (no quoted URL follows), yet
`NotifCommand::parse` returns `Ok(None)`, not the hard error the claim
requires. -/
theorem parse_add_malformed_is_ok_none :
    (NotifCommand.parse [Token.Word "add", Token.Word "foo"]).1
      = Except.ok none := by
  decide

/-- C3 (amended): a recognized notification-command keyword with a
malformed remainder is never surfaced as a hard error — `parse` never
returns `Err` for argument problems. What happens instead depends on the
arm, because the keyword is never consumed after the peek and each arm
reads the keyword token itself as its first argument: every `add`-headed
stream declines silently with `Ok(None)` (the quoted-URL check hits the
keyword word), a `move` whose following token is missing or a terminator
declines with `Ok(None)`, while `ack`, `acknowledge` and `meta` — and a
`move` followed by a word or quote — succeed, binding the unconsumed
keyword word as the argument. The conjunction below characterizes every
stream headed by a recognized keyword: no case is an `Err`. -/
theorem parse_recognized_keyword_never_errors (rest : Tokenizer) (w q : String) :
    (NotifCommand.parse (Token.Word "add" :: rest)).1 = Except.ok none
    ∧ (NotifCommand.parse [Token.Word "move"]).1 = Except.ok none
    ∧ (NotifCommand.parse (Token.Word "move" :: Token.Semi :: rest)).1
        = Except.ok none
    ∧ (NotifCommand.parse (Token.Word "move" :: Token.Dot :: rest)).1
        = Except.ok none
    ∧ (NotifCommand.parse (Token.Word "move" :: Token.EndOfLine :: rest)).1
        = Except.ok none
    ∧ (NotifCommand.parse (Token.Word "move" :: Token.Word w :: rest)).1
        = Except.ok (some ⟨NotifCommandKind.Move "move" w, none⟩)
    ∧ (NotifCommand.parse (Token.Word "move" :: Token.Quote q :: rest)).1
        = Except.ok (some ⟨NotifCommandKind.Move "move" q, none⟩)
    ∧ (NotifCommand.parse (Token.Word "ack" :: rest)).1
        = Except.ok (some ⟨NotifCommandKind.Acknowledge "ack", none⟩)
    ∧ (NotifCommand.parse (Token.Word "acknowledge" :: rest)).1
        = Except.ok (some ⟨NotifCommandKind.Acknowledge "acknowledge", none⟩)
    ∧ (NotifCommand.parse (Token.Word "meta" :: rest)).1
        = Except.ok (some ⟨NotifCommandKind.Add "meta"
            (NotifCommand.consumeDescription rest "").1, none⟩) :=
  ⟨rfl, rfl, rfl, rfl, rfl, rfl, rfl, rfl, rfl, rfl⟩

/-- C4: evaluating the parser at `meta 1 hello` — the meta arm of the
source constructs the `Add` variant (lines 87 and 91 of
`parser/src/command/manage_notifs.rs`), and additionally binds its index
to the unconsumed keyword word itself, instead of the distinct
`Meta(1, "hello")` the claim states. -/
theorem parse_meta_constructs_add :
    (NotifCommand.parse [Token.Word "meta", Token.Word "1", Token.Word "hello"]).1
      = Except.ok (some ⟨NotifCommandKind.Add "meta" "1 hello", none⟩) := by
  decide

/-- C5: per-feature configuration gating in `handle_github`, for a handler
whose `parse_input` yields `Some(input)`: a loaded configuration without
the handler's section aborts with the fixed feature-not-enabled message
naming the feature and `execute` is never called; a `Missing` or `Toml`
configuration failure aborts with that failure's message as a user-facing
`HandlerError::Message`; an `Http` failure aborts with
`HandlerError::Other`, which renders opaquely to the user. -/
theorem handle_github_config_gating (h : GithubHandlerSpec)
    (rest : List GithubHandlerSpec) (notif rustc : Except String Unit)
    (input : String) (c : Config) (m : String)
    (hparse : h.parseInput none = Except.ok (some input)) :
    (c.sections h.name = none →
      handle_github (Except.ok c) (h :: rest) notif rustc
        = (Except.error (HandlerError.Message (featureNotEnabled h.name)),
           [DispatchEvent.parseCalled h.name])
      ∧ DispatchEvent.executeCalled h.name
          ∉ (handle_github (Except.ok c) (h :: rest) notif rustc).2)
    ∧ handle_github (Except.error ConfigurationError.Missing) (h :: rest) notif rustc
        = (Except.error (HandlerError.Message
            (ConfigurationError.display ConfigurationError.Missing)),
           [DispatchEvent.parseCalled h.name])
    ∧ handle_github (Except.error (ConfigurationError.Toml m)) (h :: rest) notif rustc
        = (Except.error (HandlerError.Message
            (ConfigurationError.display (ConfigurationError.Toml m))),
           [DispatchEvent.parseCalled h.name])
    ∧ handle_github (Except.error (ConfigurationError.Http m)) (h :: rest) notif rustc
        = (Except.error (HandlerError.Other
            (ConfigurationError.display (ConfigurationError.Http m))),
           [DispatchEvent.parseCalled h.name])
    ∧ HandlerError.display (HandlerError.Other
        (ConfigurationError.display (ConfigurationError.Http m)))
        = "An internal error occurred." := by
  have hMissing :
      runGithubHandlers (Except.error ConfigurationError.Missing) (h :: rest)
        = ([DispatchEvent.parseCalled h.name],
           some (HandlerError.Message
             (ConfigurationError.display ConfigurationError.Missing))) := by
    simp [runGithubHandlers, sectionFor, Except.toOption, hparse]
  have hToml :
      runGithubHandlers (Except.error (ConfigurationError.Toml m)) (h :: rest)
        = ([DispatchEvent.parseCalled h.name],
           some (HandlerError.Message
             (ConfigurationError.display (ConfigurationError.Toml m)))) := by
    simp [runGithubHandlers, sectionFor, Except.toOption, hparse]
  have hHttp :
      runGithubHandlers (Except.error (ConfigurationError.Http m)) (h :: rest)
        = ([DispatchEvent.parseCalled h.name],
           some (HandlerError.Other
             (ConfigurationError.display (ConfigurationError.Http m)))) := by
    simp [runGithubHandlers, sectionFor, Except.toOption, hparse]
  refine ⟨?_, ?_, ?_, ?_, rfl⟩
  · intro hsec
    have hrun : runGithubHandlers (Except.ok c) (h :: rest)
        = ([DispatchEvent.parseCalled h.name],
           some (HandlerError.Message (featureNotEnabled h.name))) := by
      simp [runGithubHandlers, sectionFor, Except.toOption, hsec, hparse]
    constructor
    · unfold handle_github
      rw [hrun]
    · unfold handle_github
      rw [hrun]
      simp
  · unfold handle_github
    rw [hMissing]
  · unfold handle_github
    rw [hToml]
  · unfold handle_github
    rw [hHttp]

/-- Witness for C5 at a concrete input: a handler that matches with no
configuration section present, and the same handler under a missing
configuration file. -/
theorem handle_github_config_gating_witness :
    handle_github (Except.ok ⟨fun _ => none⟩)
        [⟨"ping", fun _ => Except.ok (some "i"), fun _ _ => Except.ok ()⟩]
        (Except.ok ()) (Except.ok ())
      = (Except.error (HandlerError.Message (featureNotEnabled "ping")),
         [DispatchEvent.parseCalled "ping"])
    ∧ handle_github (Except.error ConfigurationError.Missing)
        [⟨"ping", fun _ => Except.ok (some "i"), fun _ _ => Except.ok ()⟩]
        (Except.ok ()) (Except.ok ())
      = (Except.error (HandlerError.Message
          (ConfigurationError.display ConfigurationError.Missing)),
         [DispatchEvent.parseCalled "ping"]) :=
  ⟨((handle_github_config_gating
      ⟨"ping", fun _ => Except.ok (some "i"), fun _ _ => Except.ok ()⟩ []
      (Except.ok ()) (Except.ok ()) "i" ⟨fun _ => none⟩ "m" rfl).1 rfl).1,
   (handle_github_config_gating
      ⟨"ping", fun _ => Except.ok (some "i"), fun _ _ => Except.ok ()⟩ []
      (Except.ok ()) (Except.ok ()) "i" ⟨fun _ => none⟩ "m" rfl).2.1⟩

/-- C6: evaluating the parser at `add "https://x/y" some description
here;` — the add arm reads the keyword token itself where it expects the
quoted URL (the keyword is never consumed after the peek, unlike in the
`as`-prefix handling a few lines above), so the parse declines with
`Ok(None)` instead of yielding `Add("https://x/y", "some description
here")` as the claim states. -/
theorem parse_add_example_declines :
    (NotifCommand.parse [Token.Word "add", Token.Quote "https://x/y",
      Token.Word "some", Token.Word "description", Token.Word "here",
      Token.Semi]).1 = Except.ok none := by
  decide

/-- C7: evaluating `handle_input` on a command carrying a delegation —
the function never reads `user_override` (its delegation guard tests a
variable that is not bound in the function), so a command with
`user_override = Some(u)` reads and mutates exactly the same list, keyed
by the real sender's resolved identity, as the same command with
`user_override = None`, for every override name `u`. -/
theorem handle_input_ignores_user_override
    (resolver : Nat → Except String (Option Int)) (store : Store)
    (req : Request) (cmd : NotifCommandKind) (u : String) :
    handle_input resolver store req ⟨cmd, some u⟩
      = handle_input resolver store req ⟨cmd, none⟩ := rfl

/-- C8: executing `Acknowledge("0")` fails with the error `index must be
at least 1` and executing `Move("0", "1")` fails with the error `1-based
indexes`, in both cases before any store call, leaving the store
untouched — never a silent no-op. -/
theorem zero_position_rejected (store : Store) (g : Int) :
    acknowledge store g "0" = (store, Except.error "index must be at least 1")
    ∧ move_notification store g "0" "1" = (store, Except.error "1-based indexes") :=
  ⟨rfl, rfl⟩

/-- C9: internal errors are opaque to the user — `HandlerError::Other`
always renders as the fixed notice `An internal error occurred.` and the
chat reply for any `Other` outcome is the fixed `handling failed, error
logged` response, identical whatever the wrapped error text, while a
`HandlerError::Message` is rendered and replied verbatim. -/
theorem internal_error_reply_fixed (t d : String) (msg : Message)
    (e1 e2 m : String) :
    HandlerError.display (HandlerError.Other e1) = "An internal error occurred."
    ∧ HandlerError.display (HandlerError.Other e1)
        = HandlerError.display (HandlerError.Other e2)
    ∧ respond t ⟨d, msg, t⟩ (Except.error (HandlerError.Other e1))
        = respond t ⟨d, msg, t⟩ (Except.error (HandlerError.Other e2))
    ∧ respond t ⟨d, msg, t⟩ (Except.error (HandlerError.Other e1))
        = mkResponse "handling failed, error logged"
    ∧ respond t ⟨d, msg, t⟩ (Except.error (HandlerError.Message m)) = mkResponse m
    ∧ HandlerError.display (HandlerError.Message m) = m := by
  refine ⟨rfl, rfl, ?_, ?_, ?_, rfl⟩ <;> simp [respond]

/-- C10: `NotifCommand::parse` consumes tokens only from a clone of the
caller's cursor that is never committed back, so the cursor the caller
holds after the call is the one it passed in, whatever the outcome of the
parse — even a successful parse advances nothing. -/
theorem parse_preserves_cursor (input : Tokenizer) :
    (NotifCommand.parse input).2 = input := rfl

end Triagebot
